import Mathlib

/-!
Shallow embedding of the sponsored-transaction relay in
crates/wallet/src/lib.rs (the Traverse wallet).

Machine integers (U256 values, u64 gas, u128 fees) are modelled as Nat:
the wallet code only compares them and copies them around, it never
performs arithmetic on them, so no overflow wrapping is needed.
Addresses are 20-byte lists. Fallible Rust paths return Except, and the
one panicking path (Address::from_slice on a slice whose length is not
20) is modelled explicitly as a distinguished outcome.
-/

/-- Addresses are modelled as their 20 bytes. -/
def Address : Type := List Nat

instance : DecidableEq Address := by
  unfold Address
  infer_instance

/-- Model of alloy TxKind: a transaction either creates a contract or calls an address. -/
inductive TxKind where
  | create
  | call (addr : Address)
deriving DecidableEq

/-- Model of alloy Eip1559Estimation: the fee estimator's output. -/
structure Eip1559Estimation where
  max_fee_per_gas : Nat
  max_priority_fee_per_gas : Nat
deriving DecidableEq

/-- The fields of alloy TransactionRequest that the wallet code reads or writes.
The Rust fields named from and to are spelled from' and to' because from and to
are Lean keywords. -/
structure TransactionRequest where
  from' : Option Address
  to' : Option TxKind
  value : Option Nat
  nonce : Option Nat
  gas : Option Nat
  gas_price : Option Nat
  max_fee_per_gas : Option Nat
  max_priority_fee_per_gas : Option Nat
  input : List Nat
  authorization_list : Option (List Nat)
  chain_id : Option Nat
deriving DecidableEq

/-- Model of the error enum TraverseWalletError. InternalError's wrapped report is
collapsed to a unit since the code never inspects it. -/
inductive TraverseWalletError where
  | ValueNotZero
  | FromSet
  | NonceSet
  | IllegalDestination
  | InvalidTransactionRequest
  | GasEstimateTooHigh (estimate : Nat)
  | InternalError
deriving DecidableEq

/-- Model of the EIP-7702 DelegationCapability struct: a list of valid delegation
contract addresses. -/
structure DelegationCapability where
  addresses : List Address

/-- Embedding of validate_tx_request: reject a present non-zero value, then a
present from, then a present nonce, in that order. -/
def validate_tx_request (request : TransactionRequest) :
    Except TraverseWalletError Unit :=
  if (match request.value with
      | some val => decide (0 < val)
      | none => false) then
    .error .ValueNotZero
  else if request.from'.isSome then
    .error .FromSet
  else if request.nonce.isSome then
    .error .NonceSet
  else
    .ok ()

/-- Model of alloy Address::is_zero: every byte is zero. -/
def isZeroAddress (a : Address) : Bool :=
  a.all (fun b => b == 0)

/-- Model of alloy Address::from_slice, which panics unless the slice has exactly
20 bytes; the panic is modelled as none. -/
def addressFromSlice (bs : List Nat) : Option Address :=
  if bs.length = 20 then some bs else none

/-- Outcome of the destination-bytecode match in send_transaction on the
bytecode fetched for a call destination. -/
inductive Classified where
  | authorized
  | rejected
  | panicked
deriving DecidableEq

/-- Embedding of the slice pattern match in send_transaction on the fetched code:
the pattern 0xef, 0x01, 0x00, address @ .. matches any code of length at least 3
with that prefix and binds the whole remainder; Address::from_slice is then
applied to the remainder, panicking when it is not exactly 20 bytes; a zero
extracted address is rejected as a cleared delegation. -/
def classifyCode (code : List Nat) : Classified :=
  match code with
  | 0xef :: 0x01 :: 0x00 :: address =>
    match addressFromSlice address with
    | some addr => if isZeroAddress addr then .rejected else .authorized
    | none => .panicked
  | _ => .rejected

/-- The outcome of one send_transaction call: a hash, an error, or a panic. -/
inductive TxOutcome where
  | success (hash : Nat)
  | failure (err : TraverseWalletError)
  | panicked
deriving DecidableEq

/-- One send_transaction call observed from outside: its outcome, how much it
added to each metrics counter, which upstream operations it invoked, and the
request it handed to sign_and_send (if any). -/
structure SendResult where
  outcome : TxOutcome
  validIncr : Nat
  invalidIncr : Nat
  getCodeCalled : Bool
  estimateCalled : Bool
  signAndSendCalled : Bool
  sentRequest : Option TransactionRequest
deriving DecidableEq

/-- A model of one Upstream implementation: the signer address and the results
its three fallible operations would return for a given input. -/
structure UpstreamModel where
  signer : Address
  get_code : Address → Except TraverseWalletError (List Nat)
  estimate : TransactionRequest → Except TraverseWalletError (Nat × Eip1559Estimation)
  sign_and_send : TransactionRequest → Except TraverseWalletError Nat

/-- The relay's per-instance immutable configuration (TraverseWalletInner minus
the upstream, permit and metrics, which are modelled separately). -/
structure TraverseWalletInner where
  chain_id : Nat

/-- The request after step 4 of the coordinator: chain_id set to the service's
chain id and from set to the signer address. -/
def populated (w : TraverseWalletInner) (up : UpstreamModel)
    (request : TransactionRequest) : TransactionRequest :=
  { request with chain_id := some w.chain_id, from' := some up.signer }

/-- The request after step 7: gas, max_fee_per_gas and max_priority_fee_per_gas
taken from the estimates, gas_price cleared. -/
def filled (request : TransactionRequest) (estimate : Nat)
    (fee_estimate : Eip1559Estimation) : TransactionRequest :=
  { request with
      gas := some estimate
      max_fee_per_gas := some fee_estimate.max_fee_per_gas
      max_priority_fee_per_gas := some fee_estimate.max_priority_fee_per_gas
      gas_price := none }

/-- Embedding of the permit-guarded tail of send_transaction: populate chain_id
and from, estimate (incrementing the invalid counter on error), enforce the
350000 gas cap, fill the gas and fee fields, increment the valid counter, then
sign and send. The gc flag records whether get_code was invoked on the way in. -/
def afterPermit (gc : Bool) (w : TraverseWalletInner) (up : UpstreamModel)
    (request : TransactionRequest) : SendResult :=
  match up.estimate (populated w up request) with
  | .error err =>
    { outcome := .failure err, validIncr := 0, invalidIncr := 1,
      getCodeCalled := gc, estimateCalled := true, signAndSendCalled := false,
      sentRequest := none }
  | .ok (estimate, fee_estimate) =>
    if 350000 ≤ estimate then
      { outcome := .failure (.GasEstimateTooHigh estimate), validIncr := 0,
        invalidIncr := 1, getCodeCalled := gc, estimateCalled := true,
        signAndSendCalled := false, sentRequest := none }
    else
      match up.sign_and_send (filled (populated w up request) estimate fee_estimate) with
      | .error err =>
        { outcome := .failure err, validIncr := 1, invalidIncr := 0,
          getCodeCalled := gc, estimateCalled := true, signAndSendCalled := true,
          sentRequest := some (filled (populated w up request) estimate fee_estimate) }
      | .ok h =>
        { outcome := .success h, validIncr := 1, invalidIncr := 0,
          getCodeCalled := gc, estimateCalled := true, signAndSendCalled := true,
          sentRequest := some (filled (populated w up request) estimate fee_estimate) }

/-- Embedding of send_transaction: structural validation, then the destination
match on (authorization_list.is_some(), to). A failing get_code propagates its
error with the question-mark operator, incrementing no counter; a matched
designator whose remainder is not 20 bytes panics in Address::from_slice. -/
def send_transaction (w : TraverseWalletInner) (up : UpstreamModel)
    (request : TransactionRequest) : SendResult :=
  match validate_tx_request request with
  | .error err =>
    { outcome := .failure err, validIncr := 0, invalidIncr := 1,
      getCodeCalled := false, estimateCalled := false,
      signAndSendCalled := false, sentRequest := none }
  | .ok _ =>
    match request.authorization_list.isSome, request.to' with
    | false, some (TxKind.call addr) =>
      match up.get_code addr with
      | .error err =>
        { outcome := .failure err, validIncr := 0, invalidIncr := 0,
          getCodeCalled := true, estimateCalled := false,
          signAndSendCalled := false, sentRequest := none }
      | .ok code =>
        match classifyCode code with
        | .panicked =>
          { outcome := .panicked, validIncr := 0, invalidIncr := 0,
            getCodeCalled := true, estimateCalled := false,
            signAndSendCalled := false, sentRequest := none }
        | .rejected =>
          { outcome := .failure .IllegalDestination, validIncr := 0,
            invalidIncr := 1, getCodeCalled := true, estimateCalled := false,
            signAndSendCalled := false, sentRequest := none }
        | .authorized => afterPermit true w up request
    | true, _ => afterPermit false w up request
    | false, _ =>
      { outcome := .failure .IllegalDestination, validIncr := 0,
        invalidIncr := 1, getCodeCalled := false, estimateCalled := false,
        signAndSendCalled := false, sentRequest := none }

/-- Embedding of RethUpstream::get_code: a failing latest-state lookup becomes
InternalError, while a failing account_code query is discarded by ok() and
flattened with unwrap_or_default into empty bytes. The state view is the
provider's latest() result; provider errors are modelled as Nat codes. -/
structure StateView where
  account_code : Address → Except Nat (Option (List Nat))

def reth_get_code (latest : Except Nat StateView) (address : Address) :
    Except TraverseWalletError (List Nat) :=
  match latest with
  | .error _ => .error .InternalError
  | .ok state => .ok ((((state.account_code address).toOption).join).getD [])

/-- The all-zero 20-byte address. -/
def zeroAddr : Address := List.replicate 20 0

/-- A concrete non-zero 20-byte address, used to evaluate the theorems. -/
def oneAddr : Address := List.replicate 19 0 ++ [1]

/-- A transaction request with every optional field absent and empty call data. -/
def emptyRequest : TransactionRequest :=
  { from' := none, to' := none, value := none, nonce := none, gas := none,
    gas_price := none, max_fee_per_gas := none,
    max_priority_fee_per_gas := none, input := [],
    authorization_list := none, chain_id := none }

/-- A call request to the concrete non-zero address. -/
def callRequest : TransactionRequest :=
  { emptyRequest with to' := some (TxKind.call oneAddr) }

/-- A request carrying an authorization list and no destination. -/
def authRequest : TransactionRequest :=
  { emptyRequest with authorization_list := some [1] }

/-- An upstream whose destination bytecode is a truncated designator: the
3-byte EIP-7702 marker with no trailing address bytes. -/
def upTruncated : UpstreamModel :=
  { signer := oneAddr,
    get_code := fun _ => .ok [0xef, 0x01, 0x00],
    estimate := fun _ => .ok (21000, { max_fee_per_gas := 2, max_priority_fee_per_gas := 1 }),
    sign_and_send := fun _ => .ok 7 }

/-- An upstream whose bytecode lookup fails with an internal error. -/
def upCodeFails : UpstreamModel :=
  { signer := oneAddr,
    get_code := fun _ => .error .InternalError,
    estimate := fun _ => .ok (21000, { max_fee_per_gas := 2, max_priority_fee_per_gas := 1 }),
    sign_and_send := fun _ => .ok 7 }

/-- An upstream whose destination bytecode is a well-formed delegation to the
concrete non-zero address, with a small gas estimate. -/
def upDelegated : UpstreamModel :=
  { signer := oneAddr,
    get_code := fun _ => .ok (0xef :: 0x01 :: 0x00 :: oneAddr),
    estimate := fun _ => .ok (21000, { max_fee_per_gas := 2, max_priority_fee_per_gas := 1 }),
    sign_and_send := fun _ => .ok 7 }

/-- An upstream whose gas estimate reaches the 350000 cap. -/
def upHighGas : UpstreamModel :=
  { signer := oneAddr,
    get_code := fun _ => .ok (0xef :: 0x01 :: 0x00 :: oneAddr),
    estimate := fun _ => .ok (400000, { max_fee_per_gas := 2, max_priority_fee_per_gas := 1 }),
    sign_and_send := fun _ => .ok 7 }

/-- A state view whose account-code query always fails with provider error 42. -/
def failingState : StateView :=
  { account_code := fun _ => .error 42 }

theorem afterPermit_counter (gc : Bool) (w : TraverseWalletInner)
    (up : UpstreamModel) (r : TransactionRequest) :
    (afterPermit gc w up r).validIncr + (afterPermit gc w up r).invalidIncr = 1 := by
  unfold afterPermit
  split
  · rfl
  · split
    · rfl
    · split <;> rfl

theorem send_transaction_permit_path (w : TraverseWalletInner)
    (up : UpstreamModel) (r : TransactionRequest) :
    send_transaction w up r = afterPermit true w up r ∨
    send_transaction w up r = afterPermit false w up r ∨
    ((send_transaction w up r).estimateCalled = false ∧
     (send_transaction w up r).signAndSendCalled = false ∧
     (send_transaction w up r).sentRequest = none) := by
  unfold send_transaction
  split
  · exact Or.inr (Or.inr ⟨rfl, rfl, rfl⟩)
  · split
    · split
      · exact Or.inr (Or.inr ⟨rfl, rfl, rfl⟩)
      · split
        · exact Or.inr (Or.inr ⟨rfl, rfl, rfl⟩)
        · exact Or.inr (Or.inr ⟨rfl, rfl, rfl⟩)
        · exact Or.inl rfl
    · exact Or.inr (Or.inl rfl)
    · exact Or.inr (Or.inr ⟨rfl, rfl, rfl⟩)

/-- C1: the claim says the destination-bytecode classification rejects every
non-designator bytecode with IllegalDestination and never panics. The code is
wrong: the slice pattern binds a remainder of any length and Address::from_slice
panics when that remainder is not exactly 20 bytes. Evaluating send_transaction
on a destination whose bytecode is the bare 3-byte designator 0xEF 0x01 0x00
produces the panic outcome instead of IllegalDestination. -/
theorem C1_truncated_designator_panics :
    (send_transaction { chain_id := 1 } upTruncated callRequest).outcome =
      TxOutcome.panicked ∧
    classifyCode [0xef, 0x01, 0x00] = Classified.panicked := by
  exact ⟨rfl, rfl⟩

/-- C2 counterexample: a single call whose get_code lookup fails reaches a
terminal outcome (an InternalError failure) yet increments neither counter, so
after M = 1 requests the counters sum to 0, not 1. -/
theorem C2_counter_counterexample :
    (send_transaction { chain_id := 1 } upCodeFails callRequest).outcome =
      TxOutcome.failure TraverseWalletError.InternalError ∧
    (send_transaction { chain_id := 1 } upCodeFails callRequest).validIncr +
      (send_transaction { chain_id := 1 } upCodeFails callRequest).invalidIncr = 0 := by
  exact ⟨rfl, rfl⟩

/-- C2 amended: every send_transaction call increments exactly one of the two
counters, except a call whose get_code lookup fails (the error propagates with
no increment) and a call that panics on a truncated delegation designator
(which also increments nothing); after M calls the counters therefore sum to
M minus the number of such calls. -/
theorem C2_counters_amended (w : TraverseWalletInner) (up : UpstreamModel)
    (r : TransactionRequest) :
    (send_transaction w up r).validIncr + (send_transaction w up r).invalidIncr = 1 ∨
    ((send_transaction w up r).validIncr = 0 ∧
     (send_transaction w up r).invalidIncr = 0 ∧
     ((send_transaction w up r).outcome = TxOutcome.panicked ∨
      ∃ a err, r.to' = some (TxKind.call a) ∧ up.get_code a = Except.error err ∧
        (send_transaction w up r).outcome = TxOutcome.failure err)) := by
  rcases hv : validate_tx_request r with err | u
  · left
    simp [send_transaction, hv]
  · rcases hauth : r.authorization_list with _ | l
    · rcases hto : r.to' with _ | k
      · left
        simp [send_transaction, hv, hauth, hto]
      · rcases k with _ | a
        · left
          simp [send_transaction, hv, hauth, hto]
        · rcases hcode : up.get_code a with e | code
          · right
            refine ⟨?_, ?_, Or.inr ⟨a, e, rfl, hcode, ?_⟩⟩ <;>
              simp [send_transaction, hv, hauth, hto, hcode]
          · rcases hclass : classifyCode code with _ | _ | _
            · left
              simp [send_transaction, hv, hauth, hto, hcode, hclass,
                afterPermit_counter]
            · left
              simp [send_transaction, hv, hauth, hto, hcode, hclass]
            · right
              refine ⟨?_, ?_, Or.inl ?_⟩ <;>
                simp [send_transaction, hv, hauth, hto, hcode, hclass]
    · left
      simp [send_transaction, hv, hauth, afterPermit_counter]

/-- C3: validate_tx_request checks value, from, nonce in that fixed order and
short-circuits: it returns ValueNotZero exactly when value is present and
positive; otherwise FromSet exactly when from is set; otherwise NonceSet
exactly when nonce is set; otherwise Ok. -/
theorem C3_validate_order (r : TransactionRequest) :
    (validate_tx_request r = Except.error TraverseWalletError.ValueNotZero ↔
      ∃ v, r.value = some v ∧ 0 < v) ∧
    (validate_tx_request r = Except.error TraverseWalletError.FromSet ↔
      (¬∃ v, r.value = some v ∧ 0 < v) ∧ r.from'.isSome = true) ∧
    (validate_tx_request r = Except.error TraverseWalletError.NonceSet ↔
      (¬∃ v, r.value = some v ∧ 0 < v) ∧ r.from' = none ∧
        r.nonce.isSome = true) ∧
    (validate_tx_request r = Except.ok () ↔
      (¬∃ v, r.value = some v ∧ 0 < v) ∧ r.from' = none ∧ r.nonce = none) := by
  rcases hval : r.value with _ | v
  · rcases hfrom : r.from' with _ | f <;> rcases hnonce : r.nonce with _ | n <;>
      simp [validate_tx_request, hval, hfrom, hnonce]
  · by_cases hv : 0 < v
    · simp [validate_tx_request, hval, hv]
    · have hv0 : v = 0 := by omega
      subst hv0
      rcases hfrom : r.from' with _ | f <;> rcases hnonce : r.nonce with _ | n <;>
        simp [validate_tx_request, hval, hfrom, hnonce]

theorem afterPermit_estimateCalled (gc : Bool) (w : TraverseWalletInner)
    (up : UpstreamModel) (r : TransactionRequest) :
    (afterPermit gc w up r).estimateCalled = true := by
  unfold afterPermit
  split
  · rfl
  · split
    · rfl
    · split <;> rfl

theorem afterPermit_getCodeCalled (gc : Bool) (w : TraverseWalletInner)
    (up : UpstreamModel) (r : TransactionRequest) :
    (afterPermit gc w up r).getCodeCalled = gc := by
  unfold afterPermit
  split
  · rfl
  · split
    · rfl
    · split <;> rfl

/-- C4: when the destination bytecode is the 3-byte designator followed by a
20-byte address, a zero extracted address is rejected with IllegalDestination
and any non-zero extracted address proceeds past authorization into the
permit-guarded estimation phase. The DelegationCapability is universally
quantified and absent from the conclusion: send_transaction performs no check
of the extracted address against any capability address list. -/
theorem C4_delegation_policy (w : TraverseWalletInner) (up : UpstreamModel)
    (r : TransactionRequest) (a : Address) (rest : List Nat)
    (cap : DelegationCapability)
    (hv : validate_tx_request r = Except.ok ())
    (hauth : r.authorization_list = none)
    (hto : r.to' = some (TxKind.call a))
    (hcode : up.get_code a = Except.ok (0xef :: 0x01 :: 0x00 :: rest))
    (hlen : rest.length = 20) :
    (isZeroAddress rest = true →
      (send_transaction w up r).outcome =
        TxOutcome.failure TraverseWalletError.IllegalDestination) ∧
    (isZeroAddress rest = false →
      (send_transaction w up r).estimateCalled = true) := by
  have hc : classifyCode (0xef :: 0x01 :: 0x00 :: rest) =
      if isZeroAddress rest then Classified.rejected else Classified.authorized := by
    simp [classifyCode, addressFromSlice, hlen]
  constructor
  · intro hz
    simp [send_transaction, hv, hauth, hto, hcode, hc, hz]
  · intro hz
    simp [send_transaction, hv, hauth, hto, hcode, hc, hz,
      afterPermit_estimateCalled]

/-- C4 witness: with a well-formed delegation to the non-zero address, the
request reaches the estimation phase. -/
theorem C4_delegation_policy_witness :
    (send_transaction { chain_id := 1 } upDelegated callRequest).estimateCalled =
      true :=
  (C4_delegation_policy { chain_id := 1 } upDelegated callRequest oneAddr oneAddr
    { addresses := [] } rfl rfl rfl rfl (by decide)).2 (by decide)

/-- C5: past structural validation, a request carrying an authorization list
never triggers get_code and proceeds into the estimation phase regardless of
its destination, while a request without one whose destination is not a call
target is rejected with IllegalDestination, also without calling get_code. -/
theorem C5_authorization_gate (w : TraverseWalletInner) (up : UpstreamModel)
    (r : TransactionRequest) (hv : validate_tx_request r = Except.ok ()) :
    (r.authorization_list.isSome = true →
      (send_transaction w up r).getCodeCalled = false ∧
      (send_transaction w up r).estimateCalled = true) ∧
    (r.authorization_list = none → (∀ a, r.to' ≠ some (TxKind.call a)) →
      (send_transaction w up r).outcome =
        TxOutcome.failure TraverseWalletError.IllegalDestination ∧
      (send_transaction w up r).getCodeCalled = false) := by
  constructor
  · intro hs
    constructor
    · simp [send_transaction, hv, hs, afterPermit_getCodeCalled]
    · simp [send_transaction, hv, hs, afterPermit_estimateCalled]
  · intro hn hto
    rcases hto' : r.to' with _ | k
    · constructor <;> simp [send_transaction, hv, hn, hto']
    · rcases k with _ | a
      · constructor <;> simp [send_transaction, hv, hn, hto']
      · exact absurd hto' (hto a)

/-- C5 witness: a request with an authorization list proceeds to estimation
without any bytecode lookup. -/
theorem C5_authorization_gate_witness :
    (send_transaction { chain_id := 1 } upTruncated authRequest).getCodeCalled =
        false ∧
    (send_transaction { chain_id := 1 } upTruncated authRequest).estimateCalled =
        true :=
  (C5_authorization_gate { chain_id := 1 } upTruncated authRequest rfl).1 rfl

theorem afterPermit_capped (gc : Bool) (w : TraverseWalletInner)
    (up : UpstreamModel) (r : TransactionRequest) (g : Nat)
    (fees : Eip1559Estimation)
    (hest : up.estimate (populated w up r) = Except.ok (g, fees))
    (hg : 350000 ≤ g) :
    afterPermit gc w up r =
      { outcome := .failure (.GasEstimateTooHigh g), validIncr := 0,
        invalidIncr := 1, getCodeCalled := gc, estimateCalled := true,
        signAndSendCalled := false, sentRequest := none } := by
  unfold afterPermit
  rw [hest]
  simp [hg]

theorem afterPermit_under_cap (gc : Bool) (w : TraverseWalletInner)
    (up : UpstreamModel) (r : TransactionRequest) (g : Nat)
    (fees : Eip1559Estimation)
    (hest : up.estimate (populated w up r) = Except.ok (g, fees))
    (hg : g < 350000) :
    (afterPermit gc w up r).signAndSendCalled = true ∧
    (afterPermit gc w up r).sentRequest =
      some (filled (populated w up r) g fees) := by
  unfold afterPermit
  rw [hest]
  rcases hss : up.sign_and_send (filled (populated w up r) g fees) with e | h <;>
    simp [Nat.not_le.mpr hg, hss]

theorem afterPermit_sent_shape (gc : Bool) (w : TraverseWalletInner)
    (up : UpstreamModel) (r : TransactionRequest) :
    (afterPermit gc w up r).signAndSendCalled = false ∨
    ∃ g fees, (afterPermit gc w up r).sentRequest =
      some (filled (populated w up r) g fees) := by
  rcases hest : up.estimate (populated w up r) with e | p
  · left
    simp [afterPermit, hest]
  · rcases p with ⟨g, fees⟩
    by_cases hg : 350000 ≤ g
    · left
      simp [afterPermit, hest, hg]
    · right
      exact ⟨g, fees, (afterPermit_under_cap gc w up r g fees hest
        (Nat.not_le.mp hg)).2⟩

/-- C6: whenever the request reaches the estimation step and the gas estimate
is at least 350000, send_transaction fails with GasEstimateTooHigh carrying
exactly that estimate, increments only the invalid counter, and never calls
sign_and_send. -/
theorem C6_gas_cap (w : TraverseWalletInner) (up : UpstreamModel)
    (r : TransactionRequest) (g : Nat) (fees : Eip1559Estimation)
    (hcall : (send_transaction w up r).estimateCalled = true)
    (hest : up.estimate (populated w up r) = Except.ok (g, fees))
    (hg : 350000 ≤ g) :
    (send_transaction w up r).outcome =
      TxOutcome.failure (TraverseWalletError.GasEstimateTooHigh g) ∧
    (send_transaction w up r).invalidIncr = 1 ∧
    (send_transaction w up r).validIncr = 0 ∧
    (send_transaction w up r).signAndSendCalled = false := by
  rcases send_transaction_permit_path w up r with h | h | ⟨h1, _, _⟩
  · rw [h, afterPermit_capped true w up r g fees hest hg]
    exact ⟨rfl, rfl, rfl, rfl⟩
  · rw [h, afterPermit_capped false w up r g fees hest hg]
    exact ⟨rfl, rfl, rfl, rfl⟩
  · simp [hcall] at h1

/-- C6 witness: an authorization-list request whose upstream estimates 400000
gas is rejected with GasEstimateTooHigh 400000 and is never signed. -/
theorem C6_gas_cap_witness :
    (send_transaction { chain_id := 1 } upHighGas authRequest).outcome =
      TxOutcome.failure (TraverseWalletError.GasEstimateTooHigh 400000) ∧
    (send_transaction { chain_id := 1 } upHighGas authRequest).invalidIncr = 1 ∧
    (send_transaction { chain_id := 1 } upHighGas authRequest).validIncr = 0 ∧
    (send_transaction { chain_id := 1 } upHighGas authRequest).signAndSendCalled =
      false :=
  C6_gas_cap { chain_id := 1 } upHighGas authRequest 400000
    { max_fee_per_gas := 2, max_priority_fee_per_gas := 1 } rfl rfl (by decide)

/-- C7: whenever the request reaches the estimation step and the gas estimate
is strictly below 350000, the request handed to sign_and_send carries exactly
the estimated gas, the estimator's two fee fields, and no gas_price. -/
theorem C7_fee_population (w : TraverseWalletInner) (up : UpstreamModel)
    (r : TransactionRequest) (g : Nat) (fees : Eip1559Estimation)
    (hcall : (send_transaction w up r).estimateCalled = true)
    (hest : up.estimate (populated w up r) = Except.ok (g, fees))
    (hg : g < 350000) :
    ∃ sent, (send_transaction w up r).sentRequest = some sent ∧
      sent.gas = some g ∧
      sent.max_fee_per_gas = some fees.max_fee_per_gas ∧
      sent.max_priority_fee_per_gas = some fees.max_priority_fee_per_gas ∧
      sent.gas_price = none ∧
      (send_transaction w up r).signAndSendCalled = true := by
  rcases send_transaction_permit_path w up r with h | h | ⟨h1, _, _⟩
  · rcases afterPermit_under_cap true w up r g fees hest hg with ⟨hs, hr⟩
    exact ⟨filled (populated w up r) g fees, by rw [h]; exact hr,
      rfl, rfl, rfl, rfl, by rw [h]; exact hs⟩
  · rcases afterPermit_under_cap false w up r g fees hest hg with ⟨hs, hr⟩
    exact ⟨filled (populated w up r) g fees, by rw [h]; exact hr,
      rfl, rfl, rfl, rfl, by rw [h]; exact hs⟩
  · simp [hcall] at h1

/-- C7 witness: with an estimate of 21000 gas and fees (2, 1), the signed
request carries gas 21000, max fee 2, priority fee 1 and no gas_price. -/
theorem C7_fee_population_witness :
    ∃ sent, (send_transaction { chain_id := 1 } upDelegated authRequest).sentRequest =
        some sent ∧
      sent.gas = some 21000 ∧
      sent.max_fee_per_gas = some 2 ∧
      sent.max_priority_fee_per_gas = some 1 ∧
      sent.gas_price = none ∧
      (send_transaction { chain_id := 1 } upDelegated authRequest).signAndSendCalled =
        true :=
  C7_fee_population { chain_id := 1 } upDelegated authRequest 21000
    { max_fee_per_gas := 2, max_priority_fee_per_gas := 1 } rfl rfl (by decide)

/-- C10: every request handed to sign_and_send agrees with the caller's request
on to, value, input (call data), authorization_list and nonce: the coordinator
only ever writes from, chain_id, gas, max_fee_per_gas, max_priority_fee_per_gas
and gas_price. -/
theorem C10_untouched_fields (w : TraverseWalletInner) (up : UpstreamModel)
    (r : TransactionRequest)
    (h : (send_transaction w up r).signAndSendCalled = true) :
    ∃ sent, (send_transaction w up r).sentRequest = some sent ∧
      sent.to' = r.to' ∧ sent.value = r.value ∧ sent.input = r.input ∧
      sent.authorization_list = r.authorization_list ∧
      sent.nonce = r.nonce := by
  rcases send_transaction_permit_path w up r with hp | hp | ⟨_, h2, _⟩
  · rcases afterPermit_sent_shape true w up r with hs | ⟨g, fees, hr⟩
    · rw [hp] at h
      simp [h] at hs
    · exact ⟨filled (populated w up r) g fees, by rw [hp]; exact hr,
        by simp [filled, populated], by simp [filled, populated],
        by simp [filled, populated], by simp [filled, populated],
        by simp [filled, populated]⟩
  · rcases afterPermit_sent_shape false w up r with hs | ⟨g, fees, hr⟩
    · rw [hp] at h
      simp [h] at hs
    · exact ⟨filled (populated w up r) g fees, by rw [hp]; exact hr,
        by simp [filled, populated], by simp [filled, populated],
        by simp [filled, populated], by simp [filled, populated],
        by simp [filled, populated]⟩
  · simp [h] at h2

/-- C10 witness: for a concrete signed request, the sent transaction keeps the
caller's to, value, input, authorization list and nonce. -/
theorem C10_untouched_fields_witness :
    ∃ sent, (send_transaction { chain_id := 1 } upDelegated authRequest).sentRequest =
        some sent ∧
      sent.to' = authRequest.to' ∧ sent.value = authRequest.value ∧
      sent.input = authRequest.input ∧
      sent.authorization_list = authRequest.authorization_list ∧
      sent.nonce = authRequest.nonce :=
  C10_untouched_fields { chain_id := 1 } upDelegated authRequest rfl

/-- C8 counterexample: the claim says RethUpstream::get_code never converts a
failed account-code query into a successful empty-bytes result, but when the
latest-state lookup succeeds and the account_code query itself fails, the code
discards the error with ok() and unwrap_or_default returns empty bytes as a
success. -/
theorem C8_swallowed_error_counterexample :
    failingState.account_code oneAddr = Except.error 42 ∧
    reth_get_code (Except.ok failingState) oneAddr = Except.ok [] :=
  ⟨rfl, rfl⟩

/-- C8 amended: RethUpstream::get_code returns an error exactly when the
latest-state provider lookup fails; once a state view is obtained it always
succeeds, returning the deployed bytecode when the account-code query reports
some code, and empty bytes both when the query reports no code and when the
query itself fails, whose error is silently swallowed. -/
theorem C8_get_code_amended (latest : Except Nat StateView) (address : Address) :
    ((∃ e, latest = Except.error e) →
      reth_get_code latest address =
        Except.error TraverseWalletError.InternalError) ∧
    (∀ state, latest = Except.ok state →
      ((∃ e, state.account_code address = Except.error e) →
          reth_get_code latest address = Except.ok []) ∧
      (state.account_code address = Except.ok none →
          reth_get_code latest address = Except.ok []) ∧
      (∀ code, state.account_code address = Except.ok (some code) →
          reth_get_code latest address = Except.ok code)) := by
  constructor
  · rintro ⟨e, rfl⟩
    rfl
  · rintro state rfl
    refine ⟨?_, ?_, ?_⟩
    · rintro ⟨e, he⟩
      simp only [reth_get_code, he]
      rfl
    · intro h
      simp only [reth_get_code, h]
      rfl
    · intro code h
      simp only [reth_get_code, h]
      rfl

/-- C8 amended witness: a state view whose account-code query fails yields a
successful empty-bytes result. -/
theorem C8_get_code_amended_witness :
    reth_get_code (Except.ok failingState) oneAddr = Except.ok [] :=
  ((C8_get_code_amended (Except.ok failingState) oneAddr).2 failingState
    rfl).1 ⟨42, rfl⟩
